import Mathlib

/-!
# Verification of the carto_vivabilite filter/scoring front-end

Shallow embedding of the filter store (`src/frontend/src/stores/filterStore.ts`),
the API client request builders (`src/frontend/src/lib/api.ts`), the search hook
(`useSearchCommunes` in the hooks file) and the map style fallback
(`MapContainer`'s GeoJSON style callback), together with a model of the
backend scoring engine described in spec section 4.2 (the backend sources are
not part of this repository snapshot).

JavaScript numbers are modelled as `Int` where only comparison, clamping and
equality occur, and as `Rat` for the scoring engine where division occurs.
JavaScript `Record<string, T>` objects are modelled as association lists
`List (String × T)` with a first-match lookup.
-/

namespace Carto

/-- First-match lookup in an association list, modelling JavaScript object
indexing `obj[key]` (a JS object has unique keys, so first match is the match). -/
def lookupId (key : String) : List (String × α) → Option α
  | [] => none
  | p :: ps => if p.1 = key then some p.2 else lookupId key ps

@[simp] theorem lookupId_nil (key : String) : lookupId key ([] : List (String × α)) = none := rfl

@[simp] theorem lookupId_cons (key : String) (p : String × α) (ps : List (String × α)) :
    lookupId key (p :: ps) = if p.1 = key then some p.2 else lookupId key ps := rfl

theorem lookupId_mem {key : String} {l : List (String × α)} {v : α}
    (h : lookupId key l = some v) : (key, v) ∈ l := by
  induction l with
  | nil => simp at h
  | cons p ps ih =>
    simp only [lookupId_cons] at h
    by_cases hk : p.1 = key
    · simp [hk] at h
      cases p
      simp_all
    · simp [hk] at h
      exact List.mem_cons_of_mem _ (ih h)

/-! ## Data model (`src/frontend/src/types/filters.ts`) -/

/-- `WeightConfig` from `types/filters.ts`: weight configuration for a filter category. -/
structure WeightConfig where
  id : String
  weight : Int
  enabled : Bool
  deriving Repr, DecidableEq

/-- `RangeFilter` from `types/filters.ts`. -/
structure RangeFilter where
  min : Int
  max : Int
  enabled : Bool
  deriving Repr, DecidableEq

/-- `FilterState` from `types/filters.ts`. -/
structure FilterState where
  weights : List (String × WeightConfig)
  minScore : Int
  population : RangeFilter
  searchQuery : String
  departements : List String
  regions : List String
  categoriesLoaded : Bool
  deriving Repr, DecidableEq

/-- `createDefaultFilterState` from `types/filters.ts`. -/
def createDefaultFilterState : FilterState :=
  { weights := []
    minScore := 0
    population := { min := 0, max := 1000000, enabled := false }
    searchQuery := ""
    departements := []
    regions := []
    categoriesLoaded := false }

/-- `FilterCategory` (shape of `transformFilterCategory`'s result in `lib/api.ts`). -/
structure FilterCategory where
  id : String
  name : String
  description : String
  icon : String
  unit : Option String
  weightDefault : Int
  datasetId : String
  deriving Repr, DecidableEq

/-! ## Store actions (`src/frontend/src/stores/filterStore.ts`) -/

/-- `initializeFromCategories`: builds a fresh weights record keyed by the
categories, preserving an existing entry when present and otherwise seeding
`{id, weight: weightDefault, enabled: true}`; also sets `categoriesLoaded`. -/
def initializeFromCategories (s : FilterState) (categories : List FilterCategory) : FilterState :=
  { s with
    weights := categories.map (fun c =>
      match lookupId c.id s.weights with
      | some existing => (c.id, existing)
      | none => (c.id, { id := c.id, weight := c.weightDefault, enabled := true }))
    categoriesLoaded := true }

/-- `setWeight`: no-op when `filterId` is absent; otherwise overwrites that
entry's weight with `Math.max(0, Math.min(100, weight))`. -/
def setWeight (s : FilterState) (filterId : String) (weight : Int) : FilterState :=
  match lookupId filterId s.weights with
  | none => s
  | some _ =>
    { s with
      weights := s.weights.map (fun p =>
        if p.1 = filterId then (p.1, { p.2 with weight := max 0 (min 100 weight) }) else p) }

/-- `toggleFilter`: no-op when `filterId` is absent; otherwise negates that
entry's `enabled` flag. -/
def toggleFilter (s : FilterState) (filterId : String) : FilterState :=
  match lookupId filterId s.weights with
  | none => s
  | some _ =>
    { s with
      weights := s.weights.map (fun p =>
        if p.1 = filterId then (p.1, { p.2 with enabled := !p.2.enabled }) else p) }

/-- `setMinScore`: clamps to [0,100]. -/
def setMinScore (s : FilterState) (score : Int) : FilterState :=
  { s with minScore := max 0 (min 100 score) }

/-- `setPopulationRange`: stores `min := Math.max(0, min)` and
`max := Math.max(min, max)` (the raw `min` argument), keeping `enabled`. -/
def setPopulationRange (s : FilterState) (mn mx : Int) : FilterState :=
  { s with population := { s.population with min := max 0 mn, max := max mn mx } }

/-- `togglePopulationFilter`. -/
def togglePopulationFilter (s : FilterState) : FilterState :=
  { s with population := { s.population with enabled := !s.population.enabled } }

/-- `setSearchQuery`. -/
def setSearchQuery (s : FilterState) (query : String) : FilterState :=
  { s with searchQuery := query }

/-- `setDepartements`. -/
def setDepartements (s : FilterState) (codes : List String) : FilterState :=
  { s with departements := codes }

/-- `setRegions`. -/
def setRegions (s : FilterState) (codes : List String) : FilterState :=
  { s with regions := codes }

/-- `resetFilters`: every weight back to 50 and enabled (keeping the entry's
`id` field), `minScore` 0, population range (0, 1000000) disabled, empty
search query, empty departement and region lists. `categoriesLoaded` is kept. -/
def resetFilters (s : FilterState) : FilterState :=
  { s with
    weights := s.weights.map (fun p => (p.1, { p.2 with weight := 50, enabled := true }))
    minScore := 0
    population := { min := 0, max := 1000000, enabled := false }
    searchQuery := ""
    departements := []
    regions := [] }

/-- `getEnabledWeights`: maps every entry of the weights record to its weight
when enabled and to 0 when disabled. -/
def getEnabledWeights (s : FilterState) : List (String × Int) :=
  s.weights.map (fun p => (p.1, if p.2.enabled then p.2.weight else 0))

/-- `hasActiveFilters`: true iff some weight differs from 50 or is disabled,
or `minScore ≠ 0`, or the population filter is enabled, or the search query is
non-empty, or a departement or region code is selected. -/
def hasActiveFilters (s : FilterState) : Bool :=
  s.weights.any (fun p => p.2.weight ≠ 50 || !p.2.enabled) ||
  s.minScore ≠ 0 ||
  s.population.enabled ||
  s.searchQuery ≠ "" ||
  decide (s.departements.length > 0) ||
  decide (s.regions.length > 0)

/-! ## API client (`src/frontend/src/lib/api.ts`) -/

/-- Viewport bounds, `SearchFilters.bounds` in `types/filters.ts`. -/
structure Bounds where
  north : Rat
  south : Rat
  east : Rat
  west : Rat
  deriving Repr, DecidableEq

/-- `SearchFilters` from `types/filters.ts`: optional fields are `Option`. -/
structure SearchFilters where
  weights : List (String × Int)
  minScore : Option Int
  populationMin : Option Int
  populationMax : Option Int
  departements : Option (List String)
  regions : Option (List String)
  searchQuery : Option String
  bounds : Option Bounds
  limit : Option Int
  offset : Option Int
  deriving Repr, DecidableEq

/-- JavaScript `x || d` on a `number | undefined`: `undefined` and `0` are
falsy, every other number is truthy. -/
def jsOrNum (x : Option Int) (d : Int) : Int :=
  match x with
  | none => d
  | some v => if v = 0 then d else v

/-- Request body shared by `searchCommunes` and `searchGeoJSON` (snake_case
fields of the POST body in `lib/api.ts`). -/
structure SearchRequestBody where
  weights : List (String × Int)
  min_score : Option Int
  population_min : Option Int
  population_max : Option Int
  departements : Option (List String)
  regions : Option (List String)
  search_query : Option String
  bounds : Option Bounds
  limit : Int
  offset : Int
  deriving Repr, DecidableEq

/-- The body assembled by `api.searchCommunes`: predicate fields passed
through, `limit := filters.limit || 50`, `offset := filters.offset || 0`. -/
def searchCommunesBody (filters : SearchFilters) : SearchRequestBody :=
  { weights := filters.weights
    min_score := filters.minScore
    population_min := filters.populationMin
    population_max := filters.populationMax
    departements := filters.departements
    regions := filters.regions
    search_query := filters.searchQuery
    bounds := filters.bounds
    limit := jsOrNum filters.limit 50
    offset := jsOrNum filters.offset 0 }

/-- The body assembled by `api.searchGeoJSON`: same predicate fields,
`limit := filters.limit || 500`, `offset := 0`. -/
def searchGeoJSONBody (filters : SearchFilters) : SearchRequestBody :=
  { weights := filters.weights
    min_score := filters.minScore
    population_min := filters.populationMin
    population_max := filters.populationMax
    departements := filters.departements
    regions := filters.regions
    search_query := filters.searchQuery
    bounds := filters.bounds
    limit := jsOrNum filters.limit 500
    offset := 0 }

/-! ## Search hook (`useSearchCommunes` in `hooks/useCommunes.ts`) -/

/-- The `SearchFilters` value assembled by `useSearchCommunes` from the filter
store state and the weight record argument: `minScore` always included,
population bounds only when the population filter is enabled,
`searchQuery || undefined`, departement and region lists only when non-empty,
`bounds` and `limit` explicitly `undefined` (and `offset` never set). -/
def useSearchCommunesFilters (s : FilterState) (weights : List (String × Int)) : SearchFilters :=
  { weights := weights
    minScore := some s.minScore
    populationMin := if s.population.enabled then some s.population.min else none
    populationMax := if s.population.enabled then some s.population.max else none
    searchQuery := if s.searchQuery = "" then none else some s.searchQuery
    departements := if s.departements.length > 0 then some s.departements else none
    regions := if s.regions.length > 0 then some s.regions else none
    bounds := none
    limit := none
    offset := none }

/-! ## Map style fallback (`MapContainer`'s GeoJSON style callback) -/

/-- The properties the style callback reads from a GeoJSON feature:
`{ score_global?: number; code_insee?: string }`. -/
structure FeatureStyleProps where
  score_global : Option Rat
  code_insee : Option String
  deriving Repr, DecidableEq

/-- `props?.score_global ?? 50` in the `style` callback of `MapContainer`:
the score used for colouring a feature whose properties may be absent or may
lack `score_global`. -/
def styleScore (props : Option FeatureStyleProps) : Rat :=
  match props with
  | none => 50
  | some p => p.score_global.getD 50

/-! ## Scoring engine (spec section 4.2; backend sources absent from this
snapshot) -/

/-- Modelled from the spec: the backend Scoring Engine of section 4.2 is not
among the repository sources here (only the frontend is). Per the spec: for
each criterion id present in the weight vector with weight > 0 and present in
the commune's per-criterion score map, accumulate `weight * normalizedScore`
and accumulate `weight` as the denominator; composite = weighted sum / sum of
weights; when the denominator is zero (no enabled criterion has data for this
commune) the composite is the neutral midpoint 50. -/
def compositeScore (commune : List (String × Rat)) (weightVector : List (String × Rat)) : Rat :=
  let relevant := weightVector.filter
    (fun p => decide (0 < p.2) && (lookupId p.1 commune).isSome)
  let den := (relevant.map (fun p => p.2)).sum
  let num := (relevant.map (fun p => p.2 * (lookupId p.1 commune).getD 0)).sum
  if den = 0 then 50 else num / den

/-! ## Theorems -/

/-- C5: for every `SearchFilters` value, the filtered geometry request built by
`searchGeoJSON` carries exactly the same predicate as the search request built
by `searchCommunes` for the same filters: the `weights`, `min_score`,
`population_min`, `population_max`, `departements`, `regions`, `search_query`
and `bounds` fields of the two request bodies are equal. -/
theorem searchGeoJSON_same_predicate (filters : SearchFilters) :
    (searchGeoJSONBody filters).weights = (searchCommunesBody filters).weights ∧
    (searchGeoJSONBody filters).min_score = (searchCommunesBody filters).min_score ∧
    (searchGeoJSONBody filters).population_min = (searchCommunesBody filters).population_min ∧
    (searchGeoJSONBody filters).population_max = (searchCommunesBody filters).population_max ∧
    (searchGeoJSONBody filters).departements = (searchCommunesBody filters).departements ∧
    (searchGeoJSONBody filters).regions = (searchCommunesBody filters).regions ∧
    (searchGeoJSONBody filters).search_query = (searchCommunesBody filters).search_query ∧
    (searchGeoJSONBody filters).bounds = (searchCommunesBody filters).bounds :=
  ⟨rfl, rfl, rfl, rfl, rfl, rfl, rfl, rfl⟩

/-- C10: both request builders replace a falsy (`undefined` or `0`) caller
limit by their default (50 for `searchCommunes`, 500 for `searchGeoJSON`), the
limit actually sent by `searchCommunes` is never 0, and `searchGeoJSON` always
sends offset 0. -/
theorem pagination_defaults (filters : SearchFilters)
    (h : filters.limit = none ∨ filters.limit = some 0) :
    (searchCommunesBody filters).limit = 50 ∧
    (searchGeoJSONBody filters).limit = 500 ∧
    (searchCommunesBody filters).limit ≠ 0 ∧
    (searchGeoJSONBody filters).limit ≠ 0 ∧
    (searchGeoJSONBody filters).offset = 0 := by
  rcases h with h | h <;>
    simp [searchCommunesBody, searchGeoJSONBody, jsOrNum, h]

/-- Witness for C10 at the empty filter value with `limit = undefined`. -/
theorem pagination_defaults_witness :
    (searchCommunesBody ⟨[], none, none, none, none, none, none, none, none, none⟩).limit = 50 ∧
    (searchGeoJSONBody ⟨[], none, none, none, none, none, none, none, none, none⟩).limit = 500 ∧
    (searchCommunesBody ⟨[], none, none, none, none, none, none, none, none, none⟩).limit ≠ 0 ∧
    (searchGeoJSONBody ⟨[], none, none, none, none, none, none, none, none, none⟩).limit ≠ 0 ∧
    (searchGeoJSONBody ⟨[], none, none, none, none, none, none, none, none, none⟩).offset = 0 :=
  pagination_defaults _ (Or.inl rfl)

/-- C7: in the request assembled by `useSearchCommunes`, `populationMin` and
`populationMax` are present iff the population filter is enabled, `searchQuery`
is present iff the stored query is non-empty, `departements` and `regions` are
present iff the respective code list is non-empty, and `bounds` and `limit`
are always omitted. -/
theorem useSearchCommunes_optional_fields (s : FilterState) (w : List (String × Int)) :
    ((useSearchCommunesFilters s w).populationMin.isSome ↔ s.population.enabled = true) ∧
    ((useSearchCommunesFilters s w).populationMax.isSome ↔ s.population.enabled = true) ∧
    ((useSearchCommunesFilters s w).searchQuery.isSome ↔ s.searchQuery ≠ "") ∧
    ((useSearchCommunesFilters s w).departements.isSome ↔ s.departements ≠ []) ∧
    ((useSearchCommunesFilters s w).regions.isSome ↔ s.regions ≠ []) ∧
    (useSearchCommunesFilters s w).bounds = none ∧
    (useSearchCommunesFilters s w).limit = none := by
  refine ⟨?_, ?_, ?_, ?_, ?_, rfl, rfl⟩ <;>
    simp [useSearchCommunesFilters, List.length_pos]

/-- C8: calling `setWeight` or `toggleFilter` with a filter id absent from the
weights record leaves the entire store state unchanged. -/
theorem unknown_filterId_noop (s : FilterState) (filterId : String) (weight : Int)
    (h : lookupId filterId s.weights = none) :
    setWeight s filterId weight = s ∧ toggleFilter s filterId = s := by
  constructor <;> simp only [setWeight, toggleFilter, h]

/-- Witness for C8: the default store has no entry for `"x"`. -/
theorem unknown_filterId_noop_witness :
    setWeight createDefaultFilterState "x" 7 = createDefaultFilterState ∧
    toggleFilter createDefaultFilterState "x" = createDefaultFilterState :=
  unknown_filterId_noop createDefaultFilterState "x" 7 rfl

/-- C9: immediately after `resetFilters`, `hasActiveFilters` is `false` for
every starting state: reset writes exactly the configuration (all weights 50
and enabled, `minScore` 0, population filter disabled, empty query and code
lists) that `hasActiveFilters` treats as inactive. -/
theorem hasActiveFilters_after_reset (s : FilterState) :
    hasActiveFilters (resetFilters s) = false := by
  simp [hasActiveFilters, resetFilters, List.any_map, Function.comp]

/-- C3 counterexample: `setPopulationRange` called with the malformed pair
`(10, 5)` (min > max) does replace it with the adjusted well-formed range
`(10, 10)` — a silent correction, not an error. -/
theorem setPopulationRange_adjusts_counterexample :
    (10 : Int) > 5 ∧
    (setPopulationRange createDefaultFilterState 10 5).population =
      { min := 10, max := 10, enabled := false } ∧
    (setPopulationRange createDefaultFilterState 10 5).population.min ≤
      (setPopulationRange createDefaultFilterState 10 5).population.max := by
  refine ⟨by norm_num, rfl, by norm_num [setPopulationRange, createDefaultFilterState]⟩

/-- C3 amended: `setPopulationRange` silently adjusts its arguments instead of
reporting an error: it stores `min' = max 0 min` and `max' = max min max`,
keeps the `enabled` flag, and for `min ≥ 0` the stored range is well-formed
(`min' ≤ max'`) even when the supplied pair had min > max. -/
theorem setPopulationRange_silently_adjusts (s : FilterState) (mn mx : Int)
    (h : 0 ≤ mn) :
    (setPopulationRange s mn mx).population.min = max 0 mn ∧
    (setPopulationRange s mn mx).population.max = max mn mx ∧
    (setPopulationRange s mn mx).population.enabled = s.population.enabled ∧
    (setPopulationRange s mn mx).population.min ≤
      (setPopulationRange s mn mx).population.max := by
  refine ⟨rfl, rfl, rfl, ?_⟩
  simp only [setPopulationRange]
  omega

/-- Witness for the amended C3 at the malformed pair `(10, 5)`. -/
theorem setPopulationRange_silently_adjusts_witness :
    (setPopulationRange createDefaultFilterState 10 5).population.min = max 0 10 ∧
    (setPopulationRange createDefaultFilterState 10 5).population.max = max 10 5 ∧
    (setPopulationRange createDefaultFilterState 10 5).population.enabled =
      createDefaultFilterState.population.enabled ∧
    (setPopulationRange createDefaultFilterState 10 5).population.min ≤
      (setPopulationRange createDefaultFilterState 10 5).population.max :=
  setPopulationRange_silently_adjusts createDefaultFilterState 10 5 (by norm_num)

/-- Key-wise description of `getEnabledWeights` on the underlying association
list: an entry found in the weights record is found in the result, with the
weight replaced by 0 exactly when the entry is disabled. -/
theorem lookupId_enabledWeights (l : List (String × WeightConfig)) (k : String)
    (cfg : WeightConfig) (h : lookupId k l = some cfg) :
    lookupId k (l.map (fun p => (p.1, if p.2.enabled then p.2.weight else 0))) =
      some (if cfg.enabled then cfg.weight else 0) := by
  induction l with
  | nil => simp at h
  | cons p ps ih =>
    by_cases hk : p.1 = k
    · simp [hk] at h
      simp [hk, h]
    · simp [hk] at h
      simpa [hk] using ih h

/-- C4: `getEnabledWeights` returns a mapping over exactly the ids present in
the store's weights record, sending each id to the stored weight when the
filter is enabled and to 0 when it is disabled. -/
theorem getEnabledWeights_spec (s : FilterState) :
    (getEnabledWeights s).map Prod.fst = s.weights.map Prod.fst ∧
    ∀ filterId cfg, lookupId filterId s.weights = some cfg →
      lookupId filterId (getEnabledWeights s) =
        some (if cfg.enabled then cfg.weight else 0) := by
  constructor
  · simp [getEnabledWeights, List.map_map, Function.comp]
  · intro filterId cfg h
    exact lookupId_enabledWeights s.weights filterId cfg h

/-- A small concrete store: one enabled and one disabled weight entry. -/
def sampleStore : FilterState :=
  { createDefaultFilterState with
    weights := [("a", { id := "a", weight := 70, enabled := true }),
                ("b", { id := "b", weight := 30, enabled := false })] }

/-- Witness for C4 on `sampleStore`: the keys are preserved and the disabled
entry `"b"` is sent to 0. -/
theorem getEnabledWeights_spec_witness :
    (getEnabledWeights sampleStore).map Prod.fst = sampleStore.weights.map Prod.fst ∧
    lookupId "b" (getEnabledWeights sampleStore) = some 0 := by
  refine ⟨(getEnabledWeights_spec sampleStore).1, ?_⟩
  have h := (getEnabledWeights_spec sampleStore).2 "b"
    { id := "b", weight := 30, enabled := false } (by decide)
  simpa using h

/-- The weight-range invariant of the filter store: every stored weight lies
in [0,100]. -/
def WeightInv (s : FilterState) : Prop :=
  ∀ p ∈ s.weights, 0 ≤ p.2.weight ∧ p.2.weight ≤ 100

/-- C6: the weight-range invariant holds for the default state and, given that
every category default weight is in [0,100], is preserved by
`initializeFromCategories`, `setWeight` (which clamps), `toggleFilter` and
`resetFilters`. -/
theorem weights_in_range (s : FilterState) (categories : List FilterCategory)
    (filterId : String) (w : Int)
    (hs : WeightInv s)
    (hc : ∀ c ∈ categories, 0 ≤ c.weightDefault ∧ c.weightDefault ≤ 100) :
    WeightInv createDefaultFilterState ∧
    WeightInv (initializeFromCategories s categories) ∧
    WeightInv (setWeight s filterId w) ∧
    WeightInv (toggleFilter s filterId) ∧
    WeightInv (resetFilters s) := by
  refine ⟨?_, ?_, ?_, ?_, ?_⟩
  · intro p hp
    simp [createDefaultFilterState] at hp
  · intro p hp
    simp only [initializeFromCategories, List.mem_map] at hp
    obtain ⟨c, hcmem, hmatch⟩ := hp
    cases hl : lookupId c.id s.weights with
    | none =>
      rw [hl] at hmatch
      subst hmatch
      exact hc c hcmem
    | some existing =>
      rw [hl] at hmatch
      subst hmatch
      exact hs (c.id, existing) (lookupId_mem hl)
  · cases hl : lookupId filterId s.weights with
    | none => simpa [setWeight, hl] using hs
    | some cfg =>
      intro p hp
      simp only [setWeight, hl, List.mem_map] at hp
      obtain ⟨q, hq, hqe⟩ := hp
      by_cases hqf : q.1 = filterId
      · simp only [hqf, if_pos rfl] at hqe
        subst hqe
        exact ⟨le_max_left 0 _, max_le (by norm_num) (min_le_left 100 w)⟩
      · simp only [if_neg hqf] at hqe
        subst hqe
        exact hs q hq
  · cases hl : lookupId filterId s.weights with
    | none => simpa [toggleFilter, hl] using hs
    | some cfg =>
      intro p hp
      simp only [toggleFilter, hl, List.mem_map] at hp
      obtain ⟨q, hq, hqe⟩ := hp
      by_cases hqf : q.1 = filterId
      · simp only [hqf, if_pos rfl] at hqe
        subst hqe
        exact hs q hq
      · simp only [if_neg hqf] at hqe
        subst hqe
        exact hs q hq
  · intro p hp
    simp only [resetFilters, List.mem_map] at hp
    obtain ⟨q, hq, hqe⟩ := hp
    subst hqe
    norm_num

/-- A sample category with an in-range default weight. -/
def sampleCategory : FilterCategory :=
  { id := "a", name := "Mer", description := "", icon := "", unit := none,
    weightDefault := 60, datasetId := "d" }

/-- Witness for C6 at the default store, one category, and an out-of-range
`setWeight` argument (250, which the clamp brings back to 100). -/
theorem weights_in_range_witness :
    WeightInv createDefaultFilterState ∧
    WeightInv (initializeFromCategories createDefaultFilterState [sampleCategory]) ∧
    WeightInv (setWeight createDefaultFilterState "a" 250) ∧
    WeightInv (toggleFilter createDefaultFilterState "a") ∧
    WeightInv (resetFilters createDefaultFilterState) :=
  weights_in_range createDefaultFilterState [sampleCategory] "a" 250
    (by intro p hp; simp [createDefaultFilterState] at hp)
    (by intro c hcm; simp [sampleCategory] at hcm; subst hcm; norm_num [sampleCategory])

/-- C1: a commune with no data for any criterion of the weight vector gets the
neutral composite 50 from the scoring engine (spec-modelled), and the map
style callback treats a feature without a `score_global` property (or without
properties at all) as having score 50. -/
theorem composite_neutral_on_missing_data (commune : List (String × Rat))
    (weightVector : List (String × Rat))
    (h : ∀ p ∈ weightVector, lookupId p.1 commune = none) :
    compositeScore commune weightVector = 50 ∧
    styleScore none = 50 ∧
    ∀ ci : Option String, styleScore (some { score_global := none, code_insee := ci }) = 50 := by
  refine ⟨?_, rfl, fun ci => rfl⟩
  have hrel : weightVector.filter
      (fun p => decide (0 < p.2) && (lookupId p.1 commune).isSome) = [] := by
    rw [List.filter_eq_nil_iff]
    intro p hp
    simp [h p hp]
  simp [compositeScore, hrel]

/-- Witness for C1: a weight vector naming only `"climat"` against a commune
that only has a `"mer"` score. -/
theorem composite_neutral_on_missing_data_witness :
    compositeScore [("mer", (70 : Rat))] [("climat", (80 : Rat))] = 50 ∧
    styleScore none = 50 ∧
    ∀ ci : Option String, styleScore (some { score_global := none, code_insee := ci }) = 50 :=
  composite_neutral_on_missing_data [("mer", 70)] [("climat", 80)]
    (by intro p hp; simp at hp; subst hp; decide)

/-- C2: whenever every weight and every stored normalized score lies in
[0,100] and at least one criterion is enabled (positive weight) with data for
the commune, the composite score of the scoring engine (spec-modelled) lies
in [0,100]. -/
theorem composite_in_unit_range (commune : List (String × Rat))
    (weightVector : List (String × Rat))
    (hw : ∀ p ∈ weightVector, 0 ≤ p.2 ∧ p.2 ≤ 100)
    (hc : ∀ q ∈ commune, 0 ≤ q.2 ∧ q.2 ≤ 100)
    (hex : ∃ p ∈ weightVector, 0 < p.2 ∧ (lookupId p.1 commune).isSome) :
    0 ≤ compositeScore commune weightVector ∧
    compositeScore commune weightVector ≤ 100 := by
  obtain ⟨p₀, hp₀mem, hp₀pos, hp₀some⟩ := hex
  have hmem : ∀ q ∈ weightVector.filter
      (fun p => decide (0 < p.2) && (lookupId p.1 commune).isSome),
      q ∈ weightVector ∧ 0 < q.2 ∧ (lookupId q.1 commune).isSome := by
    intro q hq
    rw [List.mem_filter] at hq
    obtain ⟨hq1, hq2⟩ := hq
    simp only [Bool.and_eq_true, decide_eq_true_eq] at hq2
    exact ⟨hq1, hq2.1, hq2.2⟩
  have hne : weightVector.filter
      (fun p => decide (0 < p.2) && (lookupId p.1 commune).isSome) ≠ [] := by
    have hmem₀ : p₀ ∈ weightVector.filter
        (fun p => decide (0 < p.2) && (lookupId p.1 commune).isSome) := by
      rw [List.mem_filter]
      exact ⟨hp₀mem, by simp [hp₀pos, hp₀some]⟩
    intro hnil
    rw [hnil] at hmem₀
    simp at hmem₀
  have hden : 0 < ((weightVector.filter
      (fun p => decide (0 < p.2) && (lookupId p.1 commune).isSome)).map
      (fun p => p.2)).sum := by
    apply List.sum_pos
    · intro x hx
      rw [List.mem_map] at hx
      obtain ⟨q, hq, rfl⟩ := hx
      exact (hmem q hq).2.1
    · simpa using hne
  have hbound : ∀ q ∈ weightVector.filter
      (fun p => decide (0 < p.2) && (lookupId p.1 commune).isSome),
      0 ≤ q.2 * (lookupId q.1 commune).getD 0 ∧
      q.2 * (lookupId q.1 commune).getD 0 ≤ 100 * q.2 := by
    intro q hq
    obtain ⟨hqw, hqpos, hqsome⟩ := hmem q hq
    obtain ⟨v, hv⟩ := Option.isSome_iff_exists.mp hqsome
    have hvb := hc (q.1, v) (lookupId_mem hv)
    rw [hv]
    simp only [Option.getD_some]
    constructor
    · exact mul_nonneg (le_of_lt hqpos) hvb.1
    · calc q.2 * v ≤ q.2 * 100 := mul_le_mul_of_nonneg_left hvb.2 (le_of_lt hqpos)
        _ = 100 * q.2 := mul_comm _ _
  have hnum0 : 0 ≤ ((weightVector.filter
      (fun p => decide (0 < p.2) && (lookupId p.1 commune).isSome)).map
      (fun p => p.2 * (lookupId p.1 commune).getD 0)).sum := by
    apply List.sum_nonneg
    intro x hx
    rw [List.mem_map] at hx
    obtain ⟨q, hq, rfl⟩ := hx
    exact (hbound q hq).1
  have hnum100 : ((weightVector.filter
      (fun p => decide (0 < p.2) && (lookupId p.1 commune).isSome)).map
      (fun p => p.2 * (lookupId p.1 commune).getD 0)).sum ≤
      100 * ((weightVector.filter
      (fun p => decide (0 < p.2) && (lookupId p.1 commune).isSome)).map
      (fun p => p.2)).sum := by
    rw [← List.sum_map_mul_left]
    apply List.sum_le_sum
    intro q hq
    exact (hbound q hq).2
  have hcomp : compositeScore commune weightVector =
      ((weightVector.filter
        (fun p => decide (0 < p.2) && (lookupId p.1 commune).isSome)).map
        (fun p => p.2 * (lookupId p.1 commune).getD 0)).sum /
      ((weightVector.filter
        (fun p => decide (0 < p.2) && (lookupId p.1 commune).isSome)).map
        (fun p => p.2)).sum := by
    simp only [compositeScore]
    rw [if_neg (ne_of_gt hden)]
  rw [hcomp]
  constructor
  · exact div_nonneg hnum0 (le_of_lt hden)
  · rw [div_le_iff₀ hden]
    linarith [hnum100]

/-- Witness for C2: one criterion `"mer"` with weight 80 and commune score
70, all bounds concrete. -/
theorem composite_in_unit_range_witness :
    0 ≤ compositeScore [("mer", (70 : Rat))] [("mer", (80 : Rat))] ∧
    compositeScore [("mer", (70 : Rat))] [("mer", (80 : Rat))] ≤ 100 :=
  composite_in_unit_range [("mer", 70)] [("mer", 80)]
    (by intro p hp; simp at hp; subst hp; norm_num)
    (by intro q hq; simp at hq; subst hq; norm_num)
    ⟨("mer", 80), by simp, by norm_num, by decide⟩

end Carto
